import Mathlib

/-!
Shallow embedding of the sleep-recommendation frontend (Symphony AI).

The definitions below are translated from the TypeScript sources:
- `frontend/src/pages/RecommendationsPage.tsx` (`handleStartABTest`, the
  test-pair building loop),
- `frontend/src/components/SleepRecommendationForm.tsx` (`handleSubmit`),
- `frontend/src/services/api.ts` (`transformFormData`),
- `frontend/src/components/ABTestInterface.tsx` (`handleNext`, `handlePlay`,
  `handleReplay`, `handlePause`, the listen-time interval),
- `frontend/src/services/audio.ts` (`AudioService`),
- `frontend/src/types/form.ts` (`REQUIRED_FIELDS`),
- `frontend/src/types/api.ts` (object shapes).

JavaScript numbers used as millisecond timestamps and counters are modelled
as `Int` (they are only added and subtracted); audio-clock seconds and the
volume are modelled as `ℚ` (they are only compared, added and subtracted,
so rationals are exact).  JavaScript falsy-coalescing (`x || y`) on strings
and numbers is modelled explicitly.
-/

namespace SleepRec

/-- JS `o || fb` for an optional string field: `undefined` and `""` are falsy. -/
def jsOrStr (o : Option String) (fb : String) : String :=
  match o with
  | some s => if s = "" then fb else s
  | none => fb

/-- JS `o || fb` for an optional numeric field: `undefined` and `0` are falsy
(as in `recommendedTrack.duration || 180`). -/
def jsOrNat (o : Option Nat) (fb : Nat) : Nat :=
  match o with
  | some n => if n = 0 then fb else n
  | none => fb

/-- A track as delivered by the backend (`MusicTrack` in `types/api.ts`;
`track_id` is the alternate id key read by `recommendedTrack.track_id ||
recommendedTrack.id`).  `metadata` is kept abstract. -/
structure SourceTrack where
  track_id : Option String
  id : String
  title : String
  artist : Option String
  duration : Option Nat
  file_path : String
  similarity_score : Option ℚ
  metadata : Option String
deriving DecidableEq, Repr

def defaultSourceTrack : SourceTrack :=
  { track_id := none, id := "", title := "", artist := none, duration := none,
    file_path := "", similarity_score := none, metadata := none }

/-- The `track_type` marker written into each side of a test pair
(`RecommendationsPage.tsx`, the `trackA`/`trackB` object literals). -/
inductive TrackType
  | recommended
  | random
deriving DecidableEq, Repr

/-- Slot label `A | B` (the string union in the source). -/
inductive Pos
  | A
  | B
deriving DecidableEq, Repr

/-- One side of a test pair as built by `handleStartABTest`
(`RecommendationsPage.tsx` lines 109-145). -/
structure BuiltTrack where
  id : String
  title : String
  artist : Option String
  duration : Nat
  file_path : String
  similarity_score : Option ℚ
  metadata : Option String
  track_type : TrackType
deriving DecidableEq, Repr

/-- The recommended-side object literal: carries `similarity_score` and
`track_type: recommended`. -/
def mkRecommendedTrack (t : SourceTrack) : BuiltTrack :=
  { id := jsOrStr t.track_id t.id
    title := t.title
    artist := t.artist
    duration := jsOrNat t.duration 180
    file_path := t.file_path
    similarity_score := t.similarity_score
    metadata := t.metadata
    track_type := TrackType.recommended }

/-- The random-side object literal: no `similarity_score` key is written, and
`track_type: random`. -/
def mkRandomTrack (t : SourceTrack) : BuiltTrack :=
  { id := jsOrStr t.track_id t.id
    title := t.title
    artist := t.artist
    duration := jsOrNat t.duration 180
    file_path := t.file_path
    similarity_score := none
    metadata := t.metadata
    track_type := TrackType.random }

/-- A test pair as pushed onto `testPairs`
(`RecommendationsPage.tsx` lines 147-153). -/
structure TestPair where
  id : String
  track_a : BuiltTrack
  track_b : BuiltTrack
  position_randomized : Bool
  recommended_track_position : Pos
deriving DecidableEq, Repr

/-- One iteration of the pair-building loop: `recommendedInA` is the value of
`Math.random() > 0.5` for this iteration, `i` the loop index. -/
def mkTestPair (recommendedTrack randomTrack : SourceTrack)
    (recommendedInA : Bool) (i : Nat) : TestPair :=
  { id := "pair_" ++ toString (i + 1)
    track_a := if recommendedInA then mkRecommendedTrack recommendedTrack
               else mkRandomTrack randomTrack
    track_b := if recommendedInA then mkRandomTrack randomTrack
               else mkRecommendedTrack recommendedTrack
    position_randomized := recommendedInA
    recommended_track_position := if recommendedInA then Pos.A else Pos.B }

/-- The `for (let i = 0; i < 5; i++)` loop of `handleStartABTest`: pair `i`
compares `recommendations[i]` against `randomTracks[i]`.  `coin i` models the
independent `Math.random() > 0.5` draw of iteration `i`. -/
def buildTestPairs (recommendations randomTracks : List SourceTrack)
    (coin : Nat → Bool) : List TestPair :=
  (List.range 5).map (fun i =>
    mkTestPair (recommendations.getD i defaultSourceTrack)
      (randomTracks.getD i defaultSourceTrack) (coin i) i)

/-! ## Form data and submission (`types/form.ts`, `SleepRecommendationForm.tsx`) -/

/-- The merged form state (`Partial<FormData>` in `SleepRecommendationForm`):
scalar fields may still be `undefined`, list fields may be `undefined`. -/
structure PartialFormData where
  email : Option String
  stressLevel : Option String
  physicalSymptoms : Option (List String)
  emotionalState : Option String
  sleepGoal : Option String
  soundPreferences : Option (List String)
  rhythmPreference : Option String
  soundSensitivities : Option (List String)
  playbackMode : Option String
  guidedVoice : Option String
  sleepTheme : Option String
  timestamp : Option String
deriving DecidableEq, Repr

def emptyFormData : PartialFormData :=
  { email := none, stressLevel := none, physicalSymptoms := none,
    emotionalState := none, sleepGoal := none, soundPreferences := none,
    rhythmPreference := none, soundSensitivities := none, playbackMode := none,
    guidedVoice := none, sleepTheme := none, timestamp := none }

/-- Source constant `REQUIRED_FIELDS` from `types/form.ts`. -/
def REQUIRED_FIELDS : List String :=
  ["email", "stressLevel", "emotionalState", "sleepGoal", "sleepTheme"]

/-- Dynamic field access `mergedData[field]` for the required (string) fields. -/
def getField (d : PartialFormData) (f : String) : Option String :=
  if f = "email" then d.email
  else if f = "stressLevel" then d.stressLevel
  else if f = "emotionalState" then d.emotionalState
  else if f = "sleepGoal" then d.sleepGoal
  else if f = "sleepTheme" then d.sleepTheme
  else none

/-- JS truth test `!mergedData[field]`: `undefined` and `""` are falsy. -/
def isFalsyStr (o : Option String) : Bool :=
  match o with
  | some s => s = ""
  | none => true

/-- The check `REQUIRED_FIELDS.filter(field => !mergedData[field])`
(`SleepRecommendationForm.handleSubmit`). -/
def missingRequired (d : PartialFormData) : List String :=
  REQUIRED_FIELDS.filter (fun f => isFalsyStr (getField d f))

/-- The antd required rule on a scalar field: fails on `undefined` and `""`. -/
def ruleRequiredOk (o : Option String) : Bool :=
  !(isFalsyStr o)

/-- The antd `type: email` rule on the email field (`PhysiologicalSection.tsx`
lines 35-38): the format check runs only on a non-empty value (an empty one
is left to the required rule); the format predicate itself is the external
async-validator email check, passed in as `emailFormat`. -/
def emailTypeOk (emailFormat : String → Bool) (o : Option String) : Bool :=
  match o with
  | some e => (e = "") || emailFormat e
  | none => true

/-- The `await form.validateFields()` call of `handleSubmit`, validating the
rules declared in the form sections: email is required and must satisfy the
email-format rule (`PhysiologicalSection.tsx`); `stressLevel` and
`emotionalState` (`PhysiologicalSection.tsx`), `sleepGoal`
(`GoalsSection.tsx`) and `sleepTheme` (`PersonalizationSection.tsx`) are
required; no other field carries a rule.  The antd form instance and the
merged local state hold the same values (`handleFieldChange` writes both). -/
def validateFields (emailFormat : String → Bool) (d : PartialFormData) : Bool :=
  ruleRequiredOk d.email && emailTypeOk emailFormat d.email &&
  ruleRequiredOk d.stressLevel && ruleRequiredOk d.emotionalState &&
  ruleRequiredOk d.sleepGoal && ruleRequiredOk d.sleepTheme

/-- The failure exits of `handleSubmit`: a thrown `form.validateFields()`
rejection (caught, generic check-the-required-fields message) and the
explicit missing-required-fields check. -/
inductive SubmitError
  | validateFieldsFailed
  | missingRequiredFields (fields : List String)
deriving DecidableEq, Repr

/-- Source function `handleSubmit`: first `await form.validateFields()` —
a rule violation throws into the catch branch and nothing is submitted;
then the explicit `REQUIRED_FIELDS` missing check; on success submit
`{...mergedData, timestamp}` via `onSubmit`. -/
def handleSubmit (emailFormat : String → Bool) (d : PartialFormData)
    (now : String) : Except SubmitError PartialFormData :=
  if validateFields emailFormat d = true then
    let missingFields := missingRequired d
    if missingFields.length > 0 then
      Except.error (SubmitError.missingRequiredFields missingFields)
    else
      Except.ok { d with timestamp := some now }
  else
    Except.error SubmitError.validateFieldsFailed

/-- The snake_case request body built by `ApiService.transformFormData`. -/
structure TransformedFormData where
  email : Option String
  stress_level : Option String
  physical_symptoms : List String
  emotional_state : Option String
  sleep_goal : Option String
  sound_preferences : List String
  rhythm_preference : Option String
  sound_sensitivities : List String
  playback_mode : Option String
  guided_voice : Option String
  sleep_theme : Option String
  user_id : Option String
  session_id : Option String
deriving DecidableEq, Repr

/-- Source function `transformFormData` (`api.ts`): renames to snake_case, defaults the list
fields with `|| []`, and passes every value through unchanged.  (Its
missing-field check only logs to the console; it never fails.) -/
def transformFormData (d : PartialFormData) : TransformedFormData :=
  { email := d.email
    stress_level := d.stressLevel
    physical_symptoms := d.physicalSymptoms.getD []
    emotional_state := d.emotionalState
    sleep_goal := d.sleepGoal
    sound_preferences := d.soundPreferences.getD []
    rhythm_preference := d.rhythmPreference
    sound_sensitivities := d.soundSensitivities.getD []
    playback_mode := d.playbackMode
    guided_voice := d.guidedVoice
    sleep_theme := d.sleepTheme
    user_id := none
    session_id := none }

/-- The full submission path: `handleSubmit` -> `onSubmit` -> `HomePage.
handleFormSubmit` -> `apiService.getRecommendations`, whose request body is
`transformFormData(formData)`.  On a validation error no request is issued. -/
def submitFlow (emailFormat : String → Bool) (d : PartialFormData)
    (now : String) : Except SubmitError TransformedFormData :=
  (handleSubmit emailFormat d now).map transformFormData

/-! ## A/B test session construction (`RecommendationsPage.handleStartABTest`) -/

/-- The `recommendation_metadata` object literal of `abTestSession`. -/
structure RecommendationMetadata where
  reused_existing : Bool
  recommendations_count : Nat
  random_tracks_count : Nat
  test_type : String
  local_session : Bool
deriving DecidableEq, Repr

/-- The `abTestSession` object literal (`RecommendationsPage.tsx` lines
157-172); `start_time` is the `Date` value as milliseconds. -/
structure ABTestSessionData where
  session_id : String
  user_id : String
  form_data : PartialFormData
  test_pairs : List TestPair
  current_pair_index : Nat
  total_pairs : Nat
  start_time : Int
  recommendation_metadata : RecommendationMetadata
deriving DecidableEq, Repr

/-- The distinct failure exits of `handleStartABTest`: missing or too few
recommendations (direct `message.error` + return), a failed
`/api/music/random` fetch (the thrown failed-fetch Error), and
too few random tracks (the thrown insufficient-random-tracks Error,
also taken when the JSON body is null). -/
inductive ABTestSetupError
  | noRecommendations
  | insufficientRecommendations
  | fetchRandomFailed
  | insufficientRandomTracks
deriving DecidableEq, Repr

/-- Source function `handleStartABTest` (`RecommendationsPage.tsx` lines 63-187).
`recommendationResults` is `recommendationResults?.recommendations`;
`randomOk` is `randomTracksResponse.ok`; `randomJson` the decoded body of
`GET /api/music/random?count=5` (the request carries only the count — no
information about the recommended tracks is sent). -/
def handleStartABTest (recommendationResults : Option (List SourceTrack))
    (randomOk : Bool) (randomJson : Option (List SourceTrack))
    (coin : Nat → Bool) (sessionId : String) (formData : PartialFormData)
    (userId : String) (now : Int) :
    Except ABTestSetupError ABTestSessionData :=
  match recommendationResults with
  | none => Except.error ABTestSetupError.noRecommendations
  | some recommendations =>
    if recommendations.length < 5 then
      Except.error ABTestSetupError.insufficientRecommendations
    else if !randomOk then
      Except.error ABTestSetupError.fetchRandomFailed
    else
      match randomJson with
      | none => Except.error ABTestSetupError.insufficientRandomTracks
      | some randomTracks =>
        if randomTracks.length < 5 then
          Except.error ABTestSetupError.insufficientRandomTracks
        else
          let testPairs := buildTestPairs recommendations randomTracks coin
          Except.ok
            { session_id := sessionId
              user_id := userId
              form_data := formData
              test_pairs := testPairs
              current_pair_index := 0
              total_pairs := testPairs.length
              start_time := now
              recommendation_metadata :=
                { reused_existing := true
                  recommendations_count := recommendations.length
                  random_tracks_count := randomTracks.length
                  test_type := "recommended_vs_random"
                  local_session := false } }

/-! ## Serialized object shapes (key sets)

The blinding claims are about which keys the code writes into the objects it
hands around, so the object shapes are embedded as key lists, taken verbatim
from the object literals in the source. -/

/-- Keys of each element pushed onto `testPairs`
(`RecommendationsPage.tsx` lines 147-153). -/
def testPairObjectKeys : List String :=
  ["id", "track_a", "track_b", "position_randomized",
   "recommended_track_position"]

/-- Keys of the recommended-side track object literal (lines 109-117/136-145). -/
def recommendedTrackObjectKeys : List String :=
  ["id", "title", "artist", "duration", "file_path", "similarity_score",
   "metadata", "track_type"]

/-- Keys of the random-side track object literal (lines 118-126/128-135). -/
def randomTrackObjectKeys : List String :=
  ["id", "title", "artist", "duration", "file_path", "metadata", "track_type"]

/-- Navigation to the ab-test route passes the
session object through unchanged; `ABTestPage` hands the same object to
`ABTestInterface` as its `session` prop, so the pair objects the comparison
UI receives have exactly the keys the builder wrote. -/
def uiSessionPairKeys : List String := testPairObjectKeys

/-- Keys of the `ABTestChoice` object literal built in
`ABTestInterface.handleNext`. -/
def abTestChoiceKeys : List String :=
  ["pair_id", "chosen_track", "decision_time_ms", "play_count_a",
   "play_count_b", "total_listen_time_a", "total_listen_time_b"]

/-- Keys of the `ABTestResult` object literal built on completion. -/
def abTestResultKeys : List String :=
  ["session_id", "choices", "completion_time", "total_duration_ms"]

/-! ## A/B test interface state machine (`ABTestInterface.tsx`) -/

/-- The choice object literal recorded by `handleNext`. -/
structure ABTestChoiceData where
  pair_id : String
  chosen_track : Pos
  decision_time_ms : Int
  play_count_a : Int
  play_count_b : Int
  total_listen_time_a : Int
  total_listen_time_b : Int
deriving DecidableEq, Repr

/-- The `ABTestResult` object literal built when the last pair is answered.
`completion_time` is `new Date().toISOString()` — always set on completion,
modelled as the completion clock value. -/
structure ABTestResultData where
  session_id : String
  choices : List ABTestChoiceData
  completion_time : Option Int
  total_duration_ms : Int
deriving DecidableEq, Repr

/-- The React component state of `ABTestInterface`: current pair index,
recorded choices, the selected radio value, the session/pair start clocks,
and the per-pair playback instrumentation (`playCountA/B`, `listenTimeA/B`
plus the `audioStateX.isPlaying` flags the interval reads). -/
structure InterfaceState where
  currentPairIndex : Nat
  choices : List ABTestChoiceData
  selectedChoice : Option Pos
  startTime : Int
  pairStartTime : Int
  playCountA : Int
  playCountB : Int
  listenTimeA : Int
  listenTimeB : Int
  playingA : Bool
  playingB : Bool
deriving DecidableEq, Repr

/-- Initial component state (`useState` initialisers, mount time `now`). -/
def initInterfaceState (now : Int) : InterfaceState :=
  { currentPairIndex := 0, choices := [], selectedChoice := none,
    startTime := now, pairStartTime := now,
    playCountA := 0, playCountB := 0, listenTimeA := 0, listenTimeB := 0,
    playingA := false, playingB := false }

/-- Outcome of one `handleNext` invocation: rejected because no radio choice
is selected, unreachable because no pair exists at the index (the component
renders a spinner instead of the submit button), advance to the next pair,
or completion (`onComplete` fired with the result). -/
inductive StepResult
  | blockedNoChoice (s : InterfaceState)
  | blockedNoPair (s : InterfaceState)
  | next (s : InterfaceState)
  | complete (s : InterfaceState) (r : ABTestResultData)
deriving DecidableEq, Repr

/-- Source function `handleNext` (`ABTestInterface.tsx`): requires a selection; records a
choice built from the pair at `currentPairIndex`; appends it; on the last
pair builds the result (leaving `currentPairIndex` untouched), otherwise
advances the index by one.  The advance branch also reflects the
`useEffect` that runs on the index change: it resets the selection, the
pair clock and the per-pair instrumentation, and disposes both audio
services (stopping playback). -/
def handleNext (sess : ABTestSessionData) (now : Int) (s : InterfaceState) :
    StepResult :=
  match s.selectedChoice with
  | none => StepResult.blockedNoChoice s
  | some side =>
    match sess.test_pairs[s.currentPairIndex]? with
    | none => StepResult.blockedNoPair s
    | some currentPair =>
      let choice : ABTestChoiceData :=
        { pair_id := currentPair.id
          chosen_track := side
          decision_time_ms := now - s.pairStartTime
          play_count_a := s.playCountA
          play_count_b := s.playCountB
          total_listen_time_a := s.listenTimeA
          total_listen_time_b := s.listenTimeB }
      let newChoices := s.choices ++ [choice]
      if s.currentPairIndex = sess.total_pairs - 1 then
        StepResult.complete { s with choices := newChoices }
          { session_id := sess.session_id
            choices := newChoices
            completion_time := some now
            total_duration_ms := now - s.startTime }
      else
        StepResult.next
          { s with choices := newChoices
                   currentPairIndex := s.currentPairIndex + 1
                   selectedChoice := none
                   pairStartTime := now
                   playCountA := 0, playCountB := 0
                   listenTimeA := 0, listenTimeB := 0
                   playingA := false, playingB := false }

/-- A user submission: select a side (`handleChoiceChange`) then click the
next button (`handleNext`). -/
def submitChoice (sess : ABTestSessionData) (now : Int) (side : Pos)
    (s : InterfaceState) : StepResult :=
  handleNext sess now { s with selectedChoice := some side }

/-- The component state after a step (on completion the component state keeps
its index; the result goes to `onComplete`). -/
def stepState (r : StepResult) : InterfaceState :=
  match r with
  | StepResult.blockedNoChoice s => s
  | StepResult.blockedNoPair s => s
  | StepResult.next s => s
  | StepResult.complete s _ => s

/-- Run a sequence of submissions (clock value and chosen side each). -/
def runChoices (sess : ABTestSessionData) :
    List (Int × Pos) → InterfaceState → InterfaceState
  | [], s => s
  | (now, side) :: rest, s =>
    runChoices sess rest (stepState (submitChoice sess now side s))

/-- Run submissions insisting every step is an ordinary advance
(`StepResult.next`); `none` if any step blocks or completes. -/
def runNextSteps (sess : ABTestSessionData) :
    List (Int × Pos) → InterfaceState → Option InterfaceState
  | [], s => some s
  | (now, side) :: rest, s =>
    match submitChoice sess now side s with
    | StepResult.next s2 => runNextSteps sess rest s2
    | _ => none

/-! ## Playback instrumentation (`ABTestInterface.tsx`)

`handlePlay` pauses the opposite track if it is playing, starts its own and
increments the play count; `handleReplay` restarts its own track (without
touching the other) and increments the count; `handlePause` pauses; the
100 ms `setInterval` adds 100 to `listenTimeX` for each track whose audio
state is playing.  Events model the successful handler executions. -/

inductive PlaybackEvent
  | playA
  | playB
  | replayA
  | replayB
  | pauseA
  | pauseB
  | tick
deriving DecidableEq, Repr

/-- Source function `handlePlay` (both branches). -/
def handlePlay (track : Pos) (s : InterfaceState) : InterfaceState :=
  match track with
  | Pos.A =>
    let s1 := if s.playingB then { s with playingB := false } else s
    { s1 with playingA := true, playCountA := s1.playCountA + 1 }
  | Pos.B =>
    let s1 := if s.playingA then { s with playingA := false } else s
    { s1 with playingB := true, playCountB := s1.playCountB + 1 }

/-- Source function `handleReplay`: `stop()` then `play()` on the same service, count + 1. -/
def handleReplay (track : Pos) (s : InterfaceState) : InterfaceState :=
  match track with
  | Pos.A => { s with playingA := true, playCountA := s.playCountA + 1 }
  | Pos.B => { s with playingB := true, playCountB := s.playCountB + 1 }

/-- Source function `handlePause`: `AudioService.pause` leaves the flag false either way. -/
def handlePause (track : Pos) (s : InterfaceState) : InterfaceState :=
  match track with
  | Pos.A => { s with playingA := false }
  | Pos.B => { s with playingB := false }

/-- One firing of the 100 ms listen-time interval. -/
def listenTick (s : InterfaceState) : InterfaceState :=
  { s with listenTimeA := s.listenTimeA + (if s.playingA then 100 else 0)
           listenTimeB := s.listenTimeB + (if s.playingB then 100 else 0) }

def playbackStep (s : InterfaceState) (e : PlaybackEvent) : InterfaceState :=
  match e with
  | PlaybackEvent.playA => handlePlay Pos.A s
  | PlaybackEvent.playB => handlePlay Pos.B s
  | PlaybackEvent.replayA => handleReplay Pos.A s
  | PlaybackEvent.replayB => handleReplay Pos.B s
  | PlaybackEvent.pauseA => handlePause Pos.A s
  | PlaybackEvent.pauseB => handlePause Pos.B s
  | PlaybackEvent.tick => listenTick s

/-- Instrumentation after any sequence of playback events from mount. -/
def playbackRun (now : Int) (evs : List PlaybackEvent) : InterfaceState :=
  evs.foldl playbackStep (initInterfaceState now)

/-! ## AudioService (`services/audio.ts`)

The mutable fields of the service are modelled as a record; the audio-context
clock (`audioContext.currentTime`) is passed in as `now`.  `loadAudio`
models the success path of `decodeAudioData` (buffer present, duration
set); `play` throws an audio-not-loaded Error when no buffer is loaded and
otherwise mutates; exceptions are modelled with `Except`. -/

structure AudioState where
  audioLoaded : Bool
  duration : ℚ
  startTime : ℚ
  pauseTime : ℚ
  isPlaying : Bool
  volume : ℚ
deriving DecidableEq, Repr

namespace AudioService

/-- Field initialisers of the class. -/
def initState : AudioState :=
  { audioLoaded := false, duration := 0, startTime := 0, pauseTime := 0,
    isPlaying := false, volume := 1 }

/-- Method `setVolume`: `this.volume = Math.max(0, Math.min(1, volume))` (the gain
node mirrors the field). -/
def setVolume (v : ℚ) (s : AudioState) : AudioState :=
  { s with volume := max 0 (min 1 v) }

/-- Method `stop`: discards the source, clears the playing flag and the pause
position. -/
def stop (s : AudioState) : AudioState :=
  { s with isPlaying := false, pauseTime := 0 }

/-- Method `pause`: only acts while a source is playing. -/
def pause (now : ℚ) (s : AudioState) : AudioState :=
  if s.isPlaying then
    { s with pauseTime := now - s.startTime, isPlaying := false }
  else s

/-- Method `play`: throws when no buffer is loaded; otherwise `stop()` first (which
zeroes `pauseTime`), then reads `offset = this.pauseTime` and starts. -/
def play (now : ℚ) (s : AudioState) : Except String AudioState :=
  if s.audioLoaded then
    let s1 := stop s
    let offset := s1.pauseTime
    Except.ok { s1 with startTime := now - offset, isPlaying := true }
  else
    Except.error ("Audio not loaded")

/-- Method `seek`: out-of-range times return immediately; otherwise stop, set the
pause position, and restart when it was playing (the un-awaited `play()`
leaves the state at the stop/seek result if it throws). -/
def seek (now time : ℚ) (s : AudioState) : AudioState :=
  if time < 0 ∨ time > s.duration then s
  else
    let wasPlaying := s.isPlaying
    let s1 := stop s
    let s2 := { s1 with pauseTime := time }
    if wasPlaying then
      match play now s2 with
      | Except.ok r => r
      | Except.error _ => s2
    else s2

/-- Method `loadAudio` success path: buffer decoded, duration recorded. -/
def loadAudio (d : ℚ) (s : AudioState) : AudioState :=
  { s with audioLoaded := true, duration := d }

/-- Method `replay`: `stop()` then `play()`. -/
def replay (now : ℚ) (s : AudioState) : Except String AudioState :=
  play now (stop s)

/-- Method `getCurrentTime`. -/
def getCurrentTime (now : ℚ) (s : AudioState) : ℚ :=
  if s.isPlaying then min (now - s.startTime) s.duration else s.pauseTime

/-- The public operations reachable through `AudioControls` plus `loadAudio`;
thrown exceptions propagate to callers who catch them, leaving the service
fields as the throwing method left them (`play` checks before mutating). -/
inductive AudioOp
  | load (d : ℚ)
  | playAt (now : ℚ)
  | pauseAt (now : ℚ)
  | stopNow
  | seekTo (now t : ℚ)
  | setVol (v : ℚ)
  | replayAt (now : ℚ)
deriving DecidableEq, Repr

def applyOp (s : AudioState) (op : AudioOp) : AudioState :=
  match op with
  | AudioOp.load d => loadAudio d s
  | AudioOp.playAt now =>
    match play now s with
    | Except.ok r => r
    | Except.error _ => s
  | AudioOp.pauseAt now => pause now s
  | AudioOp.stopNow => stop s
  | AudioOp.seekTo now t => seek now t s
  | AudioOp.setVol v => setVolume v s
  | AudioOp.replayAt now =>
    match replay now s with
    | Except.ok r => r
    | Except.error _ => s

/-- Service state after any sequence of operations from construction. -/
def runOps (ops : List AudioOp) : AudioState :=
  ops.foldl applyOp initState

end AudioService

/-! ## Concrete inputs used by the closed theorems and witnesses -/

/-- Five recommended tracks (a top-5 recommendation list). -/
def recsW : List SourceTrack :=
  [
    { defaultSourceTrack with
      track_id := some ("t1")
      id := "t1"
      title := "T1"
      file_path := "music/t1.mp3"
      similarity_score := some (9/10) },
    { defaultSourceTrack with
      track_id := some ("t2")
      id := "t2"
      title := "T2"
      file_path := "music/t2.mp3"
      similarity_score := some (8/10) },
    { defaultSourceTrack with
      track_id := some ("t3")
      id := "t3"
      title := "T3"
      file_path := "music/t3.mp3"
      similarity_score := some (7/10) },
    { defaultSourceTrack with
      track_id := some ("t4")
      id := "t4"
      title := "T4"
      file_path := "music/t4.mp3"
      similarity_score := some (6/10) },
    { defaultSourceTrack with
      track_id := some ("t5")
      id := "t5"
      title := "T5"
      file_path := "music/t5.mp3"
      similarity_score := some (5/10) } ]

/-- A possible body of `GET /api/music/random?count=5`: its first track is
the corpus track `t1`, which is also the top recommendation — the endpoint
samples from the same music database and the request carries no exclusion
information. -/
def randsOverlap : List SourceTrack :=
  [
    { defaultSourceTrack with
      track_id := some ("t1")
      id := "t1"
      title := "T1"
      file_path := "music/t1.mp3" },
    { defaultSourceTrack with
      track_id := some ("r2")
      id := "r2"
      title := "R2"
      file_path := "music/r2.mp3" },
    { defaultSourceTrack with
      track_id := some ("r3")
      id := "r3"
      title := "R3"
      file_path := "music/r3.mp3" },
    { defaultSourceTrack with
      track_id := some ("r4")
      id := "r4"
      title := "R4"
      file_path := "music/r4.mp3" },
    { defaultSourceTrack with
      track_id := some ("r5")
      id := "r5"
      title := "R5"
      file_path := "music/r5.mp3" } ]

/-- Five random tracks disjoint from the recommendations. -/
def randsDisjoint : List SourceTrack :=
  [
    { defaultSourceTrack with
      track_id := some ("r1")
      id := "r1"
      title := "R1"
      file_path := "music/r1.mp3" },
    { defaultSourceTrack with
      track_id := some ("r2")
      id := "r2"
      title := "R2"
      file_path := "music/r2.mp3" },
    { defaultSourceTrack with
      track_id := some ("r3")
      id := "r3"
      title := "R3"
      file_path := "music/r3.mp3" },
    { defaultSourceTrack with
      track_id := some ("r4")
      id := "r4"
      title := "R4"
      file_path := "music/r4.mp3" },
    { defaultSourceTrack with
      track_id := some ("r5")
      id := "r5"
      title := "R5"
      file_path := "music/r5.mp3" } ]

/-- A concrete 5-pair session as `handleStartABTest` builds it. -/
def sessX : ABTestSessionData :=
  { session_id := "sess_x", user_id := "user_x", form_data := emptyFormData,
    test_pairs := buildTestPairs recsW randsDisjoint (fun _ => true),
    current_pair_index := 0, total_pairs := 5, start_time := 0,
    recommendation_metadata :=
      { reused_existing := true, recommendations_count := 5,
        random_tracks_count := 5, test_type := "recommended_vs_random",
        local_session := false } }

/-- The interface state after all five pairs of `sessX` were answered. -/
def c3FinalState : InterfaceState :=
  runChoices sessX [(1, Pos.A), (2, Pos.A), (3, Pos.A), (4, Pos.A), (5, Pos.A)]
    (initInterfaceState 0)

/-- The interface state after the first four pairs of `sessX` were answered. -/
def c4State : InterfaceState :=
  runChoices sessX [(1, Pos.A), (2, Pos.A), (3, Pos.A), (4, Pos.A)]
    (initInterfaceState 0)

/-- A loaded, playing audio service state. -/
def audioW : AudioState :=
  { audioLoaded := true, duration := 5, startTime := 0, pauseTime := 2,
    isPlaying := true, volume := 1 }

/-- A concrete instance of the external async-validator email check on the
inputs exercised here: it accepts the well-formed address used below and,
like the real validator, rejects the malformed address `foo`. -/
def emailRegexW : String → Bool :=
  fun e => e = "user@example.com"

/-- A form whose five required fields are all present (with real option
values from `types/form.ts`) but whose email is malformed. -/
def formBadEmail : PartialFormData :=
  { emptyFormData with
    email := some ("foo")
    stressLevel := some ("中度壓力")
    emotionalState := some ("焦慮")
    sleepGoal := some ("快速入眠")
    sleepTheme := some ("平靜如水（穩定神經）") }

/-! ## Helper lemmas -/

lemma play_volume {now : ℚ} {s r : AudioState}
    (h : AudioService.play now s = Except.ok r) : r.volume = s.volume := by
  unfold AudioService.play at h
  split at h
  · cases h
    rfl
  · cases h

lemma applyOp_volume_bounds (s : AudioState) (op : AudioService.AudioOp)
    (h0 : 0 ≤ s.volume) (h1 : s.volume ≤ 1) :
    0 ≤ (AudioService.applyOp s op).volume ∧
      (AudioService.applyOp s op).volume ≤ 1 := by
  cases op with
  | load d => exact ⟨h0, h1⟩
  | playAt now =>
    simp only [AudioService.applyOp]
    split
    · next r hr => rw [play_volume hr]; exact ⟨h0, h1⟩
    · exact ⟨h0, h1⟩
  | pauseAt now =>
    simp only [AudioService.applyOp, AudioService.pause]
    split <;> exact ⟨h0, h1⟩
  | stopNow => exact ⟨h0, h1⟩
  | seekTo now t =>
    simp only [AudioService.applyOp, AudioService.seek]
    split
    · exact ⟨h0, h1⟩
    · split
      · split
        · next r hr =>
          rw [play_volume hr]
          exact ⟨h0, h1⟩
        · exact ⟨h0, h1⟩
      · exact ⟨h0, h1⟩
  | setVol v =>
    refine ⟨le_max_left 0 _, max_le ?_ (min_le_left 1 v)⟩
    norm_num
  | replayAt now =>
    simp only [AudioService.applyOp, AudioService.replay]
    split
    · next r hr => rw [play_volume hr]; exact ⟨h0, h1⟩
    · exact ⟨h0, h1⟩

lemma foldl_volume_bounds (ops : List AudioService.AudioOp) (s : AudioState)
    (h0 : 0 ≤ s.volume) (h1 : s.volume ≤ 1) :
    0 ≤ (ops.foldl AudioService.applyOp s).volume ∧
      (ops.foldl AudioService.applyOp s).volume ≤ 1 := by
  induction ops generalizing s with
  | nil => exact ⟨h0, h1⟩
  | cons op rest ih =>
    have hb := applyOp_volume_bounds s op h0 h1
    exact ih (AudioService.applyOp s op) hb.1 hb.2

lemma buildTestPairs_get (recommendations randomTracks : List SourceTrack)
    (coin : Nat → Bool) {i : Nat} (hi : i < 5) :
    (buildTestPairs recommendations randomTracks coin)[i]? =
      some (mkTestPair (recommendations.getD i defaultSourceTrack)
        (randomTracks.getD i defaultSourceTrack) (coin i) i) := by
  simp [buildTestPairs, List.getElem?_map, List.getElem?_range, hi]

lemma buildTestPairs_length (recommendations randomTracks : List SourceTrack)
    (coin : Nat → Bool) :
    (buildTestPairs recommendations randomTracks coin).length = 5 := by
  simp [buildTestPairs]

lemma mkTestPair_roles (rec rand : SourceTrack) (b : Bool) (i : Nat) :
    ((mkTestPair rec rand b i).track_a = mkRecommendedTrack rec ∧
      (mkTestPair rec rand b i).track_b = mkRandomTrack rand) ∨
    ((mkTestPair rec rand b i).track_a = mkRandomTrack rand ∧
      (mkTestPair rec rand b i).track_b = mkRecommendedTrack rec) := by
  cases b
  · exact Or.inr ⟨rfl, rfl⟩
  · exact Or.inl ⟨rfl, rfl⟩

lemma mkTestPair_track_types (rec rand : SourceTrack) (b : Bool) (i : Nat) :
    ((mkTestPair rec rand b i).track_a.track_type = TrackType.recommended ↔
      ¬ (mkTestPair rec rand b i).track_b.track_type = TrackType.recommended) ∧
    ((mkTestPair rec rand b i).recommended_track_position = Pos.A ↔ b = true) ∧
    ((mkTestPair rec rand b i).recommended_track_position = Pos.A ↔
      (mkTestPair rec rand b i).track_a.track_type = TrackType.recommended) := by
  cases b <;>
    simp [mkTestPair, mkRecommendedTrack, mkRandomTrack]

lemma handleNext_next_inv {sess : ABTestSessionData} {now : Int}
    {s s2 : InterfaceState} (h : handleNext sess now s = StepResult.next s2) :
    s2.currentPairIndex = s.currentPairIndex + 1 ∧
    s2.choices.length = s.choices.length + 1 ∧
    ∃ c, s2.choices = s.choices ++ [c] := by
  cases hsel : s.selectedChoice with
  | none => simp [handleNext, hsel] at h
  | some side =>
    cases hp : sess.test_pairs[s.currentPairIndex]? with
    | none => simp [handleNext, hsel, hp] at h
    | some pair =>
      simp only [handleNext, hsel, hp] at h
      split at h
      · cases h
      · cases h
        exact ⟨rfl, by simp, _, rfl⟩

lemma handleNext_complete_inv {sess : ABTestSessionData} {now : Int}
    {s s2 : InterfaceState} {r : ABTestResultData}
    (h : handleNext sess now s = StepResult.complete s2 r) :
    s2.currentPairIndex = s.currentPairIndex ∧
    s2.choices.length = s.choices.length + 1 ∧
    (∃ c, s2.choices = s.choices ++ [c]) ∧
    r.choices = s2.choices ∧
    r.completion_time = some now ∧
    s.currentPairIndex = sess.total_pairs - 1 ∧
    ∃ side pair, s.selectedChoice = some side ∧
      sess.test_pairs[s.currentPairIndex]? = some pair := by
  cases hsel : s.selectedChoice with
  | none => simp [handleNext, hsel] at h
  | some side =>
    cases hp : sess.test_pairs[s.currentPairIndex]? with
    | none => simp [handleNext, hsel, hp] at h
    | some pair =>
      simp only [handleNext, hsel, hp] at h
      split at h
      · next hidx =>
        cases h
        exact ⟨rfl, by simp, ⟨_, rfl⟩, rfl, rfl, hidx, side, pair, rfl, rfl⟩
      · cases h

lemma handleNext_choice_fields {sess : ABTestSessionData} {now : Int}
    {s : InterfaceState} {side : Pos} {pair : TestPair}
    (hsel : s.selectedChoice = some side)
    (hp : sess.test_pairs[s.currentPairIndex]? = some pair) :
    ∀ s2 : InterfaceState,
      (handleNext sess now s = StepResult.next s2 ∨
        ∃ r, handleNext sess now s = StepResult.complete s2 r) →
      s2.choices = s.choices ++
        [{ pair_id := pair.id, chosen_track := side,
           decision_time_ms := now - s.pairStartTime,
           play_count_a := s.playCountA, play_count_b := s.playCountB,
           total_listen_time_a := s.listenTimeA,
           total_listen_time_b := s.listenTimeB }] := by
  intro s2 h
  have hn : handleNext sess now s = StepResult.next s2 ∨
      ∃ r, handleNext sess now s = StepResult.complete s2 r := h
  simp only [handleNext, hsel, hp] at hn
  rcases hn with hn | ⟨r, hn⟩
  · split at hn
    · cases hn
    · cases hn
      rfl
  · split at hn
    · cases hn
      rfl
    · cases hn

lemma runNextSteps_inv (sess : ABTestSessionData) :
    ∀ (steps : List (Int × Pos)) (s s2 : InterfaceState),
      s.choices.length = s.currentPairIndex →
      runNextSteps sess steps s = some s2 →
      s2.choices.length = s2.currentPairIndex := by
  intro steps
  induction steps with
  | nil =>
    intro s s2 hinv h
    simp [runNextSteps] at h
    rw [← h]
    exact hinv
  | cons step rest ih =>
    intro s s2 hinv h
    obtain ⟨now, side⟩ := step
    cases hstep : submitChoice sess now side s with
    | next s3 =>
      have h3 := handleNext_next_inv hstep
      refine ih s3 s2 ?_ ?_
      · rw [h3.1, h3.2.1]
        exact congrArg (· + 1) hinv
      · simpa [runNextSteps, hstep] using h
    | blockedNoChoice s3 => simp [runNextSteps, hstep] at h
    | blockedNoPair s3 => simp [runNextSteps, hstep] at h
    | complete s3 r => simp [runNextSteps, hstep] at h

lemma handleNext_last_completes {sess : ABTestSessionData}
    {s : InterfaceState} {side : Pos} {pair : TestPair} (now : Int)
    (hsel : s.selectedChoice = some side)
    (hp : sess.test_pairs[s.currentPairIndex]? = some pair)
    (hlast : s.currentPairIndex = sess.total_pairs - 1) :
    ∃ s2 r, handleNext sess now s = StepResult.complete s2 r := by
  simp only [handleNext, hsel, hp]
  rw [if_pos hlast]
  exact ⟨_, _, rfl⟩

lemma playbackStep_nonneg (s : InterfaceState) (e : PlaybackEvent)
    (h1 : 0 ≤ s.playCountA) (h2 : 0 ≤ s.playCountB)
    (h3 : 0 ≤ s.listenTimeA) (h4 : 0 ≤ s.listenTimeB) :
    0 ≤ (playbackStep s e).playCountA ∧ 0 ≤ (playbackStep s e).playCountB ∧
    0 ≤ (playbackStep s e).listenTimeA ∧
    0 ≤ (playbackStep s e).listenTimeB := by
  cases e <;>
    simp [playbackStep, handlePlay, handleReplay, handlePause, listenTick] <;>
    (try split_ifs) <;>
    (try simp) <;>
    omega

lemma foldl_playback_nonneg (evs : List PlaybackEvent) (s : InterfaceState)
    (h1 : 0 ≤ s.playCountA) (h2 : 0 ≤ s.playCountB)
    (h3 : 0 ≤ s.listenTimeA) (h4 : 0 ≤ s.listenTimeB) :
    0 ≤ (evs.foldl playbackStep s).playCountA ∧
    0 ≤ (evs.foldl playbackStep s).playCountB ∧
    0 ≤ (evs.foldl playbackStep s).listenTimeA ∧
    0 ≤ (evs.foldl playbackStep s).listenTimeB := by
  induction evs generalizing s with
  | nil => exact ⟨h1, h2, h3, h4⟩
  | cons e rest ih =>
    obtain ⟨g1, g2, g3, g4⟩ := playbackStep_nonneg s e h1 h2 h3 h4
    exact ih (playbackStep s e) g1 g2 g3 g4

lemma missingRequired_nil_iff (d : PartialFormData) :
    missingRequired d = [] ↔
      ∀ f ∈ REQUIRED_FIELDS, isFalsyStr (getField d f) = false := by
  simp [missingRequired, List.filter_eq_nil_iff]

lemma missingRequired_nil_proj (d : PartialFormData) :
    missingRequired d = [] ↔
      (isFalsyStr d.email = false ∧ isFalsyStr d.stressLevel = false ∧
       isFalsyStr d.emotionalState = false ∧ isFalsyStr d.sleepGoal = false ∧
       isFalsyStr d.sleepTheme = false) := by
  rw [missingRequired_nil_iff]
  simp [REQUIRED_FIELDS, getField]

lemma validateFields_true_iff (emailFormat : String → Bool)
    (d : PartialFormData) :
    validateFields emailFormat d = true ↔
      (missingRequired d = [] ∧ emailTypeOk emailFormat d.email = true) := by
  rw [missingRequired_nil_proj]
  simp only [validateFields, ruleRequiredOk, Bool.and_eq_true,
    Bool.not_eq_true']
  tauto

lemma validateFields_false_of_missing (emailFormat : String → Bool)
    (d : PartialFormData) (h : missingRequired d ≠ []) :
    validateFields emailFormat d = false := by
  cases hv : validateFields emailFormat d
  · rfl
  · exact absurd ((validateFields_true_iff emailFormat d).mp hv).1 h

/-! ## Claim theorems -/

/-- C9: `AudioService.setVolume(v)` stores the clamped value
`max(0, min(1, v))` for every input `v` (including `v < 0` and `v > 1`),
and after any sequence of service operations from construction the volume
field lies in `[0, 1]`. -/
theorem setVolume_clamped :
    (∀ (v : ℚ) (s : AudioState),
      (AudioService.setVolume v s).volume = max 0 (min 1 v) ∧
      0 ≤ (AudioService.setVolume v s).volume ∧
      (AudioService.setVolume v s).volume ≤ 1)
    ∧ (∀ ops : List AudioService.AudioOp,
      0 ≤ (AudioService.runOps ops).volume ∧
        (AudioService.runOps ops).volume ≤ 1) := by
  constructor
  · intro v s
    refine ⟨rfl, le_max_left 0 _, max_le ?_ (min_le_left 1 v)⟩
    norm_num
  · intro ops
    exact foldl_volume_bounds ops AudioService.initState
      (by norm_num [AudioService.initState]) (by norm_num [AudioService.initState])

/-- C10: for every out-of-range time (`t < 0` or `t > duration`),
`AudioService.seek(t)` returns without modifying any playback state: the
whole state, and in particular the pause position, playing flag and
current time, are unchanged. -/
theorem seek_out_of_range_frame (s : AudioState) (now t : ℚ)
    (h : t < 0 ∨ t > s.duration) :
    AudioService.seek now t s = s ∧
    (AudioService.seek now t s).pauseTime = s.pauseTime ∧
    (AudioService.seek now t s).isPlaying = s.isPlaying ∧
    AudioService.getCurrentTime now (AudioService.seek now t s) =
      AudioService.getCurrentTime now s := by
  have he : AudioService.seek now t s = s := by
    unfold AudioService.seek
    rw [if_pos h]
  exact ⟨he, by rw [he], by rw [he], by rw [he]⟩

/-- Witness for C10 at a concrete loaded, playing state and `t = -1`. -/
theorem seek_out_of_range_frame_witness :
    ((-1 : ℚ) < 0 ∨ (-1 : ℚ) > audioW.duration) ∧
    AudioService.seek 3 (-1) audioW = audioW := by
  have h : (-1 : ℚ) < 0 ∨ (-1 : ℚ) > audioW.duration := Or.inl (by norm_num)
  exact ⟨h, (seek_out_of_range_frame audioW 3 (-1) h).1⟩

/-- C2 counterexample: the `recommended_track_position` marker (and the
per-track `track_type` marker) IS part of the pair objects the comparison
UI receives — the session object is passed to `ABTestInterface` unchanged,
so the marker is not absent from the exposed comparison payload. -/
theorem recommended_position_exposed_to_ui :
    "recommended_track_position" ∈ uiSessionPairKeys ∧
    "track_type" ∈ recommendedTrackObjectKeys ∧
    "track_type" ∈ randomTrackObjectKeys := by
  decide

/-- C2 amended: `recommended_track_position` is present in the internal pair
data and equally present in the payload handed to the comparison UI (the
session is passed through unchanged); only the submission payload (the
choice and result objects sent to the backend) omits the marker, so
blinding rests on the UI not rendering the field, not on its absence from
the exposed data. -/
theorem blinding_marker_amended :
    uiSessionPairKeys = testPairObjectKeys ∧
    "recommended_track_position" ∈ testPairObjectKeys ∧
    "recommended_track_position" ∉ abTestChoiceKeys ∧
    "recommended_track_position" ∉ abTestResultKeys ∧
    "track_type" ∉ abTestChoiceKeys := by
  decide

/-- C5: every pair built by the loop has exactly one recommended side and one
random (control) side — the recommended side is `recommendations[i]`, the
control side `randomTracks[i]` — and `recommended_track_position` is `A`
exactly when the coin flip of that iteration placed the recommended track
in slot A (equivalently, exactly when `track_a` is the recommended side). -/
theorem pair_role_and_position (recommendations randomTracks : List SourceTrack)
    (coin : Nat → Bool) (i : Nat) (hi : i < 5) :
    ∃ p, (buildTestPairs recommendations randomTracks coin)[i]? = some p ∧
      ((p.track_a = mkRecommendedTrack (recommendations.getD i defaultSourceTrack) ∧
        p.track_b = mkRandomTrack (randomTracks.getD i defaultSourceTrack)) ∨
       (p.track_a = mkRandomTrack (randomTracks.getD i defaultSourceTrack) ∧
        p.track_b = mkRecommendedTrack (recommendations.getD i defaultSourceTrack))) ∧
      (p.track_a.track_type = TrackType.recommended ↔
        ¬ p.track_b.track_type = TrackType.recommended) ∧
      (p.recommended_track_position = Pos.A ↔ coin i = true) ∧
      (p.recommended_track_position = Pos.A ↔
        p.track_a.track_type = TrackType.recommended) := by
  exact ⟨mkTestPair (recommendations.getD i defaultSourceTrack)
      (randomTracks.getD i defaultSourceTrack) (coin i) i,
    buildTestPairs_get recommendations randomTracks coin hi,
    mkTestPair_roles _ _ _ _, mkTestPair_track_types _ _ _ _⟩

/-- Witness for C5 at concrete inputs, pair 0, coin flip `true`. -/
theorem pair_role_and_position_witness :
    ∃ p, (buildTestPairs recsW randsDisjoint (fun _ => true))[0]? = some p ∧
      ((p.track_a = mkRecommendedTrack (recsW.getD 0 defaultSourceTrack) ∧
        p.track_b = mkRandomTrack (randsDisjoint.getD 0 defaultSourceTrack)) ∨
       (p.track_a = mkRandomTrack (randsDisjoint.getD 0 defaultSourceTrack) ∧
        p.track_b = mkRecommendedTrack (recsW.getD 0 defaultSourceTrack))) ∧
      (p.track_a.track_type = TrackType.recommended ↔
        ¬ p.track_b.track_type = TrackType.recommended) ∧
      (p.recommended_track_position = Pos.A ↔ (fun _ : Nat => true) 0 = true) ∧
      (p.recommended_track_position = Pos.A ↔
        p.track_a.track_type = TrackType.recommended) :=
  pair_role_and_position recsW randsDisjoint (fun _ => true) 0 (by norm_num)

/-- C6: too few recommendations and too few random tracks each abort
`handleStartABTest` with their own distinct error (so do a missing
recommendation payload and a failed random-track fetch), and a session is
only ever produced from at least five recommendations and five random
tracks, carrying exactly five fully-built pairs. -/
theorem insufficient_corpus_errors :
    (∀ randomOk randomJson coin sid fd uid now,
      handleStartABTest none randomOk randomJson coin sid fd uid now =
        Except.error ABTestSetupError.noRecommendations)
    ∧ (∀ (recommendations : List SourceTrack) randomOk randomJson coin sid fd
        uid now, recommendations.length < 5 →
      handleStartABTest (some recommendations) randomOk randomJson coin sid fd
          uid now =
        Except.error ABTestSetupError.insufficientRecommendations)
    ∧ (∀ (recommendations randomTracks : List SourceTrack) coin sid fd uid now,
      5 ≤ recommendations.length → randomTracks.length < 5 →
      handleStartABTest (some recommendations) true (some randomTracks) coin
          sid fd uid now =
        Except.error ABTestSetupError.insufficientRandomTracks)
    ∧ (∀ recsOpt randomOk randomJson coin sid fd uid now sess,
      handleStartABTest recsOpt randomOk randomJson coin sid fd uid now =
        Except.ok sess →
      ∃ recommendations randomTracks,
        recsOpt = some recommendations ∧ randomJson = some randomTracks ∧
        5 ≤ recommendations.length ∧ 5 ≤ randomTracks.length ∧
        sess.test_pairs.length = 5 ∧ sess.total_pairs = 5 ∧
        ∀ i, i < 5 → sess.test_pairs[i]? =
          some (mkTestPair (recommendations.getD i defaultSourceTrack)
            (randomTracks.getD i defaultSourceTrack) (coin i) i)) := by
  refine ⟨?_, ?_, ?_, ?_⟩
  · intro randomOk randomJson coin sid fd uid now
    rfl
  · intro recommendations randomOk randomJson coin sid fd uid now h
    simp [handleStartABTest, h]
  · intro recommendations randomTracks coin sid fd uid now h5 hlt
    have h1 : ¬ recommendations.length < 5 := not_lt.mpr h5
    simp [handleStartABTest, h1, hlt]
  · intro recsOpt randomOk randomJson coin sid fd uid now sess h
    cases recsOpt with
    | none => simp [handleStartABTest] at h
    | some recommendations =>
      by_cases h5 : recommendations.length < 5
      · simp [handleStartABTest, h5] at h
      · cases randomOk with
        | false => simp [handleStartABTest, h5] at h
        | true =>
          cases randomJson with
          | none => simp [handleStartABTest, h5] at h
          | some randomTracks =>
            by_cases hr : randomTracks.length < 5
            · simp [handleStartABTest, h5, hr] at h
            · simp only [handleStartABTest, if_neg h5, Bool.not_true,
                Bool.false_eq_true, if_false, if_neg hr] at h
              cases h
              refine ⟨recommendations, randomTracks, rfl, rfl,
                not_lt.mp h5, not_lt.mp hr, ?_, ?_, ?_⟩
              · simp [buildTestPairs_length]
              · simp [buildTestPairs_length]
              · intro i hi
                exact buildTestPairs_get recommendations randomTracks coin hi

/-- Witness for C6: an empty recommendation list aborts with the distinct
insufficient-recommendations error. -/
theorem insufficient_corpus_errors_witness :
    handleStartABTest (some ([] : List SourceTrack)) true none
        (fun _ => false) ("s") emptyFormData ("u") 0 =
      Except.error ABTestSetupError.insufficientRecommendations :=
  insufficient_corpus_errors.2.1 [] true none (fun _ => false) ("s")
    emptyFormData ("u") 0 (by norm_num)

/-- C1 (code bug): `handleStartABTest` requests its five control tracks via
`GET /api/music/random?count=5`, sending no information about the top-5
recommendation, and never filters the response against the
recommendations.  At this concrete input the random endpoint returns the
corpus track `t1`, which is also the top recommendation: the built session
contains a pair whose control (random) side carries a top-5 track id — in
fact the pair compares `t1` against itself — contradicting the exclusion
rule stated by the design document of the repository itself. -/
theorem control_track_not_excluded :
    ∃ sess, handleStartABTest (some recsW) true (some randsOverlap)
        (fun _ => false) ("sess_1") emptyFormData ("user_1") 0 = Except.ok sess ∧
      sess.test_pairs.length = 5 ∧
      ∃ p, sess.test_pairs[0]? = some p ∧
        p.track_a.track_type = TrackType.random ∧
        p.track_a.id ∈ recsW.map (fun t => jsOrStr t.track_id t.id) ∧
        p.track_a.id = p.track_b.id := by
  refine ⟨_, rfl, by decide, _, rfl, by decide, by decide, by decide⟩

/-- C3 counterexample: after all five pairs of a session are answered (five
recorded choices), a further choice submission does not fail with any
`SessionClosed` error — `handleNext` has no such rejection and silently
accepts it, appending a sixth, duplicate choice for `pair_5` and firing
completion again. -/
theorem submission_after_completion_accepted :
    c3FinalState.choices.length = 5 ∧
    c3FinalState.choices.map (fun c => c.pair_id) =
      ["pair_1", "pair_2", "pair_3", "pair_4", "pair_5"] ∧
    ∃ s6 r, submitChoice sessX 6 Pos.A c3FinalState =
        StepResult.complete s6 r ∧
      r.choices.length = 6 ∧
      (r.choices.filter (fun c => c.pair_id = "pair_5")).length = 2 :=
  ⟨by decide, by decide, _, _, rfl, by decide, by decide⟩

/-- C3 amended: the interface never validates a submitted `pair_id` — each
recorded `pair_id` is taken from the pair at the current index, so
a mismatch cannot be expressed, and there is no `StaleSubmission` or
`SessionClosed` error.  The only rejection is a missing selection, and a
repeated submission after completion is silently accepted (appending a
duplicate choice and completing again) rather than rejected. -/
theorem submit_choice_amended :
    (∀ (sess : ABTestSessionData) (now : Int) (s : InterfaceState),
      s.selectedChoice = none →
      handleNext sess now s = StepResult.blockedNoChoice s)
    ∧ (∀ (sess : ABTestSessionData) (now : Int) (s : InterfaceState)
        (side : Pos) (pair : TestPair) (s2 : InterfaceState),
      s.selectedChoice = some side →
      sess.test_pairs[s.currentPairIndex]? = some pair →
      (handleNext sess now s = StepResult.next s2 ∨
        ∃ r, handleNext sess now s = StepResult.complete s2 r) →
      ∃ c, s2.choices = s.choices ++ [c] ∧ c.pair_id = pair.id ∧
        c.chosen_track = side)
    ∧ (∀ (sess : ABTestSessionData) (now : Int) (s s2 : InterfaceState)
        (r : ABTestResultData) (side2 : Pos) (now2 : Int),
      handleNext sess now s = StepResult.complete s2 r →
      ∃ s3 r2, submitChoice sess now2 side2 s2 = StepResult.complete s3 r2 ∧
        s3.choices.length = s2.choices.length + 1) := by
  refine ⟨?_, ?_, ?_⟩
  · intro sess now s h
    simp [handleNext, h]
  · intro sess now s side pair s2 hsel hp h
    exact ⟨_, handleNext_choice_fields hsel hp s2 h, rfl, rfl⟩
  · intro sess now s s2 r side2 now2 h
    obtain ⟨hidx, _, _, _, _, hlast, side, pair, _, hpair⟩ :=
      handleNext_complete_inv h
    have hp2 : sess.test_pairs[({ s2 with selectedChoice := some side2 } :
        InterfaceState).currentPairIndex]? = some pair := by
      show sess.test_pairs[s2.currentPairIndex]? = some pair
      rw [hidx]
      exact hpair
    have hl2 : ({ s2 with selectedChoice := some side2 } :
        InterfaceState).currentPairIndex = sess.total_pairs - 1 := by
      show s2.currentPairIndex = sess.total_pairs - 1
      rw [hidx]
      exact hlast
    obtain ⟨s3, r2, heq⟩ := handleNext_last_completes now2 rfl hp2 hl2
    have hinv := handleNext_complete_inv heq
    exact ⟨s3, r2, heq, hinv.2.1⟩

/-- Witness for the amended C3 theorem: with no radio selection, `handleNext`
rejects and leaves the state unchanged. -/
theorem submit_choice_amended_witness :
    handleNext sessX 0 (initInterfaceState 0) =
      StepResult.blockedNoChoice (initInterfaceState 0) :=
  submit_choice_amended.1 sessX 0 (initInterfaceState 0) rfl

/-- C4 counterexample: the fifth (final) successful submission appends the
fifth choice and sets a non-null completion timestamp, but does not advance
the current pair index by one — it stays at 4 instead of reaching 5. -/
theorem final_submission_keeps_index :
    c4State.currentPairIndex = 4 ∧ c4State.choices.length = 4 ∧
    ∃ s5 r, submitChoice sessX 5 Pos.A c4State = StepResult.complete s5 r ∧
      s5.currentPairIndex = 4 ∧ s5.choices.length = 5 ∧
      r.completion_time = some 5 :=
  ⟨by decide, by decide, _, _, rfl, by decide, by decide, by decide⟩

/-- C4 amended: every successful non-final submission appends exactly one
choice and advances the index by exactly one; the final submission appends
the n-th choice and sets a non-null completion timestamp but leaves the
index unchanged; history is only ever extended (each step appends one
choice to the existing list), and before completion the choice-list length
always equals the current pair index. -/
theorem choice_append_amended :
    (∀ (sess : ABTestSessionData) (now : Int) (s s2 : InterfaceState),
      handleNext sess now s = StepResult.next s2 →
      s2.currentPairIndex = s.currentPairIndex + 1 ∧
      s2.choices.length = s.choices.length + 1 ∧
      ∃ c, s2.choices = s.choices ++ [c])
    ∧ (∀ (sess : ABTestSessionData) (now : Int) (s s2 : InterfaceState)
        (r : ABTestResultData),
      handleNext sess now s = StepResult.complete s2 r →
      s2.currentPairIndex = s.currentPairIndex ∧
      s2.choices.length = s.choices.length + 1 ∧
      (∃ c, s2.choices = s.choices ++ [c]) ∧
      r.choices = s2.choices ∧ r.completion_time = some now)
    ∧ (∀ (sess : ABTestSessionData) (t0 : Int) (steps : List (Int × Pos))
        (s2 : InterfaceState),
      runNextSteps sess steps (initInterfaceState t0) = some s2 →
      s2.choices.length = s2.currentPairIndex) := by
  refine ⟨?_, ?_, ?_⟩
  · intro sess now s s2 h
    exact handleNext_next_inv h
  · intro sess now s s2 r h
    obtain ⟨h1, h2, h3, h4, h5, _⟩ := handleNext_complete_inv h
    exact ⟨h1, h2, h3, h4, h5⟩
  · intro sess t0 steps s2 h
    exact runNextSteps_inv sess steps (initInterfaceState t0) s2 rfl h

/-- Witness for the amended C4 theorem at a concrete first submission. -/
theorem choice_append_amended_witness :
    ∃ s2, submitChoice sessX 1 Pos.A (initInterfaceState 0) =
        StepResult.next s2 ∧
      s2.currentPairIndex = 1 ∧ s2.choices.length = 1 := by
  have h : submitChoice sessX 1 Pos.A (initInterfaceState 0) =
      StepResult.next (stepState
        (submitChoice sessX 1 Pos.A (initInterfaceState 0))) := by decide
  obtain ⟨h1, h2, -⟩ := choice_append_amended.1 sessX 1
    { initInterfaceState 0 with selectedChoice := some Pos.A } _ h
  exact ⟨_, h, h1, h2⟩

/-- C7 counterexample: a form whose five required fields are all present but
whose email is malformed is rejected by the `form.validateFields()` gate —
no pipeline request is issued — refuting the claim that a submission with
all required fields present is always sent onward. -/
theorem malformed_email_rejected :
    missingRequired formBadEmail = [] ∧
    submitFlow emailRegexW formBadEmail ("2025-01-01T00:00:00Z") =
      Except.error SubmitError.validateFieldsFailed := by
  refine ⟨by decide, ?_⟩
  have hv : validateFields emailRegexW formBadEmail = false := by decide
  simp [submitFlow, handleSubmit, hv, Except.map]

/-- C7 amended: a submission with any required field (`email`,
`stressLevel`, `emotionalState`, `sleepGoal`, `sleepTheme`) missing or
empty fails with a validation error and issues no pipeline request;
`form.validateFields()` runs first, so a submission can also fail its antd
field rules (a present but malformed email) with a validation error and no
request; a submission that passes validation — all required fields present
and the email accepted by the format rule — is sent onward unchanged
except for the added timestamp (then serialized field-for-field to
snake_case by `transformFormData`). -/
theorem required_field_validation :
    (∀ (emailFormat : String → Bool) (d : PartialFormData) (now : String),
      missingRequired d ≠ [] →
      submitFlow emailFormat d now =
        Except.error SubmitError.validateFieldsFailed)
    ∧ (∀ (emailFormat : String → Bool) (d : PartialFormData) (now : String),
      validateFields emailFormat d = true →
      handleSubmit emailFormat d now =
        Except.ok { d with timestamp := some now } ∧
      submitFlow emailFormat d now =
        Except.ok (transformFormData { d with timestamp := some now }))
    ∧ (∀ (emailFormat : String → Bool) (d : PartialFormData),
      validateFields emailFormat d = true ↔
        ((∀ f ∈ REQUIRED_FIELDS, isFalsyStr (getField d f) = false) ∧
         emailTypeOk emailFormat d.email = true)) := by
  refine ⟨?_, ?_, ?_⟩
  · intro emailFormat d now h
    have hv := validateFields_false_of_missing emailFormat d h
    simp [submitFlow, handleSubmit, hv, Except.map]
  · intro emailFormat d now h
    have hm : missingRequired d = [] :=
      ((validateFields_true_iff emailFormat d).mp h).1
    have hl : ¬ (missingRequired d).length > 0 := by
      simp [hm]
    constructor
    · simp only [handleSubmit]
      rw [if_pos h, if_neg hl]
    · simp only [submitFlow, handleSubmit]
      rw [if_pos h, if_neg hl]
      rfl
  · intro emailFormat d
    rw [validateFields_true_iff, missingRequired_nil_iff]

/-- Witness for the amended C7 theorem: the empty form is rejected with a
validation error and no request is issued. -/
theorem required_field_validation_witness :
    submitFlow emailRegexW emptyFormData ("2025-01-01T00:00:00Z") =
      Except.error SubmitError.validateFieldsFailed :=
  required_field_validation.1 emailRegexW emptyFormData
    ("2025-01-01T00:00:00Z") (by decide)

/-- C8: the per-track playback instrumentation is non-negative after any
sequence of playback events; the play count of a track is incremented by
exactly one by the play and replay handlers of that track and unchanged by every
other event; the listen time of a track grows by exactly 100 ms per
interval tick while that track is playing, is unchanged by a tick while it
is not playing, and is unchanged by every non-tick event. -/
theorem playback_instrumentation :
    (∀ (now : Int) (evs : List PlaybackEvent),
      0 ≤ (playbackRun now evs).playCountA ∧
      0 ≤ (playbackRun now evs).playCountB ∧
      0 ≤ (playbackRun now evs).listenTimeA ∧
      0 ≤ (playbackRun now evs).listenTimeB)
    ∧ (∀ s : InterfaceState,
      (playbackStep s PlaybackEvent.playA).playCountA = s.playCountA + 1 ∧
      (playbackStep s PlaybackEvent.replayA).playCountA = s.playCountA + 1 ∧
      (playbackStep s PlaybackEvent.playB).playCountB = s.playCountB + 1 ∧
      (playbackStep s PlaybackEvent.replayB).playCountB = s.playCountB + 1)
    ∧ (∀ (s : InterfaceState) (e : PlaybackEvent),
      e ≠ PlaybackEvent.playA → e ≠ PlaybackEvent.replayA →
      (playbackStep s e).playCountA = s.playCountA)
    ∧ (∀ (s : InterfaceState) (e : PlaybackEvent),
      e ≠ PlaybackEvent.playB → e ≠ PlaybackEvent.replayB →
      (playbackStep s e).playCountB = s.playCountB)
    ∧ (∀ s : InterfaceState,
      (playbackStep s PlaybackEvent.tick).listenTimeA =
        s.listenTimeA + (if s.playingA then 100 else 0) ∧
      (playbackStep s PlaybackEvent.tick).listenTimeB =
        s.listenTimeB + (if s.playingB then 100 else 0))
    ∧ (∀ (s : InterfaceState) (e : PlaybackEvent), e ≠ PlaybackEvent.tick →
      (playbackStep s e).listenTimeA = s.listenTimeA ∧
      (playbackStep s e).listenTimeB = s.listenTimeB) := by
  refine ⟨?_, ?_, ?_, ?_, ?_, ?_⟩
  · intro now evs
    exact foldl_playback_nonneg evs (initInterfaceState now)
      le_rfl le_rfl le_rfl le_rfl
  · intro s
    refine ⟨?_, rfl, ?_, rfl⟩ <;>
      simp [playbackStep, handlePlay, handleReplay] <;> split_ifs <;> rfl
  · intro s e hA hrA
    cases e <;> first
      | exact absurd rfl hA
      | exact absurd rfl hrA
      | simp [playbackStep, handlePlay, handleReplay, handlePause,
          listenTick] <;> split_ifs <;> rfl
  · intro s e hB hrB
    cases e <;> first
      | exact absurd rfl hB
      | exact absurd rfl hrB
      | simp [playbackStep, handlePlay, handleReplay, handlePause,
          listenTick] <;> split_ifs <;> rfl
  · intro s
    exact ⟨rfl, rfl⟩
  · intro s e ht
    cases e <;> first
      | exact absurd rfl ht
      | simp [playbackStep, handlePlay, handleReplay, handlePause] <;>
          split_ifs <;> exact ⟨rfl, rfl⟩

/-- Witness for C8: a tick on the just-mounted (non-playing) state leaves
the play count of track A unchanged. -/
theorem playback_instrumentation_witness :
    (playbackStep (initInterfaceState 0) PlaybackEvent.tick).playCountA =
      (initInterfaceState 0).playCountA :=
  playback_instrumentation.2.2.1 (initInterfaceState 0) PlaybackEvent.tick
    (by decide) (by decide)

end SleepRec
